import Mathlib

/-!
Verification development for the rate-limit / request-retry subsystem of the
Nexon HTTP client (`src/http.py`).

The embedding below mirrors the Python source:
* `RateLimit` embeds the class `RateLimit` (src/http.py lines 149-412).
  Machine state is the tuple of its instance attributes; `asyncio` artefacts
  are embedded as explicit fields: the `_ratelimit_ready` event is the
  Boolean `ready`, the liveness of `_reset_remaining_task` (the `resetting`
  property, lines 201-204) is the Boolean `resetting`, and the delay the task
  was scheduled with is `scheduled_delay`.  Python `float` timestamps and
  durations are embedded as `Rat`; Python `int` counters as `Int`.
* Response headers arrive already parsed (`int(...)` / `float(...)` in the
  source); absent headers are `none`.
* The request loop of `HTTPClient.request` (lines 806-974) is embedded as a
  deterministic function of a "script" assigning to every loop iteration the
  observable outcome of its body, with `_handle_http_response_errors`
  (lines 979-1088) embedded separately as `handle_http_response_errors`.
-/

/-- Parsed view of the response headers consumed by the rate limiters
(`X-RateLimit-Global`, `X-RateLimit-Bucket`, `X-RateLimit-Limit`,
`X-RateLimit-Remaining`, `X-RateLimit-Reset`, `X-RateLimit-Reset-After`,
`X-RateLimit-Scope`, `Retry-After`).  Numeric headers are stored already
parsed, `none` meaning the header is absent. -/
structure RespHeaders where
  x_global : Option String
  x_bucket : Option String
  x_limit : Option Int
  x_remaining : Option Int
  x_reset : Option Rat
  x_reset_after : Option Rat
  x_scope : Option String
  retry_after_hdr : Option Rat
deriving DecidableEq

/-- State of one `RateLimit` instance (src/http.py lines 166-199). -/
structure RateLimit where
  limit : Int
  remaining : Int
  reset : Option Rat
  tracked_reset_time : Rat
  reset_after : Rat
  bucket : Option String
  time_offset : Rat
  use_reset_timestamp : Bool
  first_update : Bool
  resetting : Bool
  ready : Bool
  migrating : Option String
  scheduled_delay : Rat
deriving DecidableEq

/-- `RateLimit._reset_ignore_threshold` (line 161). -/
def reset_ignore_threshold : Rat := 2 / 100

/-- `RateLimit.__init__` (lines 166-199). -/
def RateLimit.init (time_offset : Rat) (use_reset_timestamp : Bool) : RateLimit :=
  { limit := 1
    remaining := 1
    reset := none
    tracked_reset_time := 1
    reset_after := 1 + time_offset
    bucket := none
    time_offset := time_offset
    use_reset_timestamp := use_reset_timestamp
    first_update := true
    resetting := false
    ready := true
    migrating := none
    scheduled_delay := 0 }

/-- `RateLimit.start_reset_task` (lines 303-326): cancel any running reset
task, compute the seconds until the reset, and schedule a fresh task (the
new task makes `resetting` true). -/
def RateLimit.start_reset_task (rl : RateLimit) (now : Rat) : RateLimit :=
  let seconds_until_reset : Rat :=
    if rl.use_reset_timestamp then
      match rl.reset with
      | some r =>
        if r - now < reset_ignore_threshold then rl.tracked_reset_time else r - now
      | none => rl.tracked_reset_time
    else rl.tracked_reset_time
  { rl with resetting := true, scheduled_delay := seconds_until_reset }

/-- Body of `RateLimit.reset_remaining` after the sleep (lines 328-342);
the task finishing makes `resetting` false. -/
def RateLimit.reset_remaining (rl : RateLimit) : RateLimit :=
  { rl with remaining := rl.limit, ready := true, resetting := false }

/-- `RateLimit.locked` (lines 369-371). -/
def RateLimit.locked (rl : RateLimit) : Bool := rl.remaining ≤ 0

/-- `RateLimit.migrate_to` (lines 349-356). -/
def RateLimit.migrate_to (rl : RateLimit) (b : String) : RateLimit :=
  { rl with migrating := some b, remaining := rl.limit, ready := true }

/-- `RateLimit.release` (lines 409-411), a documented no-op. -/
def RateLimit.release (rl : RateLimit) : RateLimit := rl

/-- One evaluation of the body of `RateLimit.acquire` (lines 373-407) from a
resumption point: either the caller must suspend (the `await` on the event),
or it is told to migrate (`RateLimitMigrating` raised), or it proceeds and
decrements `remaining`. -/
inductive AcquireOut
  | suspended
  | migrate (target : String)
  | proceed
deriving DecidableEq

/-- The non-blocking fragment of `RateLimit.acquire` (lines 373-407). -/
def RateLimit.acquire_step (rl : RateLimit) (now : Rat) : AcquireOut × RateLimit :=
  if rl.locked && rl.ready then
    let rl1 : RateLimit := { rl with ready := false }
    let rl2 := if rl1.resetting then rl1 else rl1.start_reset_task now
    (.suspended, rl2)
  else if !rl.ready then
    (.suspended, rl)
  else
    match rl.migrating with
    | some b => (.migrate b, rl)
    | none => (.proceed, { rl with remaining := rl.remaining - 1 })

/-- The only exception `RateLimit.update` itself raises (line 222). -/
inductive UpdateErr
  | incorrect_bucket
deriving DecidableEq

/-- Lines 227-228 of `RateLimit.update`: set `limit` from the header. -/
def RateLimit.upd_limit (rl : RateLimit) (h : RespHeaders) : RateLimit :=
  { rl with limit := match h.x_limit with | none => 1 | some v => v }

/-- Lines 230-243 of `RateLimit.update`: set `remaining` from the header,
trusting it on the first update and taking the pessimistic `min` after. -/
def RateLimit.upd_remaining (rl : RateLimit) (h : RespHeaders) : RateLimit :=
  { rl with remaining :=
      match h.x_remaining with
      | none => 1
      | some v => if rl.first_update then v else min v rl.remaining }

/-- Lines 250-252 of `RateLimit.update`: in timestamp mode, track the
largest observed gap between consecutive reset timestamps. -/
def RateLimit.track_reset_gap (rl : RateLimit) (x_reset : Rat) : RateLimit :=
  match rl.reset with
  | some prev =>
    if rl.use_reset_timestamp then
      { rl with tracked_reset_time := max rl.tracked_reset_time (x_reset - prev) }
    else rl
  | none => rl

/-- Lines 254-261 of `RateLimit.update`: when the reset timestamp is new or
has advanced, store it and (in timestamp mode) restart the reset task. -/
def RateLimit.advance_reset (rl : RateLimit) (x_reset : Rat) (now : Rat) : RateLimit :=
  match rl.reset with
  | none =>
    let rl2 : RateLimit := { rl with reset := some x_reset }
    if rl2.use_reset_timestamp then rl2.start_reset_task now else rl2
  | some prev =>
    if prev < x_reset then
      let rl2 : RateLimit := { rl with reset := some x_reset }
      if rl2.use_reset_timestamp then rl2.start_reset_task now else rl2
    else rl

/-- Lines 245-261 of `RateLimit.update`: fold the `X-RateLimit-Reset`
timestamp into `reset` and (in timestamp mode) into `tracked_reset_time`,
restarting the reset task when the timestamp advances. -/
def RateLimit.upd_reset (rl : RateLimit) (h : RespHeaders) (now : Rat) : RateLimit :=
  match h.x_reset with
  | none => rl
  | some x0 =>
    let x_reset := x0 + rl.time_offset
    (rl.track_reset_gap x_reset).advance_reset x_reset now

/-- Lines 263-276 of `RateLimit.update`: set `reset_after` and (in
reset-after mode) ratchet `tracked_reset_time` upward, restarting the reset
task when the estimate grows. -/
def RateLimit.upd_reset_after (rl : RateLimit) (h : RespHeaders) (now : Rat) : RateLimit :=
  match h.x_reset_after with
  | none => rl
  | some x0 =>
    let x_reset_after := x0 + rl.time_offset
    let rl1 := { rl with reset_after := x_reset_after }
    if rl1.use_reset_timestamp = false ∧ rl1.tracked_reset_time < x_reset_after then
      ({ rl1 with tracked_reset_time := x_reset_after }).start_reset_task now
    else rl1

/-- `RateLimit.update` (lines 206-301), composed of the stages above in
source order.  A response flagged global is ignored (lines 209-211); a
bucket-name mismatch raises `IncorrectBucket` (lines 215-224). -/
def RateLimit.update (rl : RateLimit) (h : RespHeaders) (now : Rat) :
    Except UpdateErr RateLimit :=
  if h.x_global = some "true" then .ok rl
  else if rl.bucket ≠ h.x_bucket ∧ rl.bucket ≠ none then .error .incorrect_bucket
  else
    let rl1 : RateLimit := { rl with bucket := if rl.bucket = none then h.x_bucket else rl.bucket }
    let rl2 := rl1.upd_limit h
    let rl3 := rl2.upd_remaining h
    let rl4 := rl3.upd_reset h now
    let rl5 := rl4.upd_reset_after h now
    let rl6 := if rl5.resetting then rl5 else rl5.start_reset_task now
    let rl7 := if rl6.remaining > 0 ∧ rl6.ready = false then { rl6 with ready := true } else rl6
    let rl8 := if rl7.first_update then { rl7 with first_update := false } else rl7
    .ok rl8

/-!
The request executor: `HTTPClient._handle_http_response_errors`
(src/http.py lines 979-1088) and the retry loop of `HTTPClient.request`
(lines 777-974).
-/

/-- Observable features of one transport response that the error handler
reads: the status code, the truthiness of the `Via` header
(`response.headers.get("Via")`, line 1063; an absent or empty header is
falsy), and whether `json_or_text` produced JSON rather than a plain string
(`isinstance(return_value, str)`, line 1063). -/
structure TResp where
  status : Nat
  via_truthy : Bool
  body_is_json : Bool
deriving DecidableEq

/-- The typed errors the request pipeline can raise. -/
inductive ReqErr
  | discord_server_error
  | http_exception
  | unauthorized
  | forbidden
  | not_found
  | http_internal_ratelimit_locked
  | value_error_migrating
  | os_error
deriving DecidableEq

/-- Result of one call to `_handle_http_response_errors`: return
`should_retry = False`, return `should_retry = True` (with the backoff sleep
the handler performed for 5xx, line 1020), or raise. -/
inductive HandlerOut
  | ok
  | retry_after_sleep (seconds : Nat)
  | retry_no_sleep
  | raise_err (e : ReqErr)
deriving DecidableEq

/-- `HTTPClient._handle_http_response_errors` (lines 1010-1088).  The two
`dispatch` telemetry calls on the 429 branch (lines 1052-1061) only emit
events and are omitted. -/
def handle_http_response_errors (retry_request : Bool) (retry_count : Nat)
    (r : TResp) : HandlerOut :=
  if r.status < 400 then .ok
  else if r.status = 500 ∨ r.status = 502 ∨ r.status = 504 then
    if retry_request then .retry_after_sleep (1 + retry_count * 2)
    else .raise_err .discord_server_error
  else if r.status = 401 then .raise_err .unauthorized
  else if r.status = 403 then .raise_err .forbidden
  else if r.status = 404 then .raise_err .not_found
  else if r.status = 429 then
    if r.via_truthy = false ∨ r.body_is_json = false then .raise_err .http_exception
    else if retry_request then .retry_no_sleep
    else .raise_err .http_exception
  else if 500 ≤ r.status then .raise_err .discord_server_error
  else .raise_err .http_exception

/-- Observable outcome of one iteration of the retry loop body
(lines 809-959), as seen at the level of the loop's control flow:
* `rl_changed`: the gate-identity re-check hit and the body did `continue`
  (lines 813-822);
* `transport r`: the transport call completed with response `r` and the
  handler ran (lines 834-919);
* `os_retry`: the transport raised an `OSError` with errno 54/10054
  (lines 922-928);
* `os_fatal`: the transport raised any other `OSError`;
* `migrate_found`: `RateLimitMigrating` was raised and the canonical bucket
  was found in `_buckets` (lines 930-938);
* `migrate_lost`: `RateLimitMigrating` was raised but the canonical bucket
  was absent, raising `ValueError` (lines 939-955). -/
inductive Outcome
  | rl_changed
  | transport (r : TResp)
  | os_retry
  | os_fatal
  | migrate_found
  | migrate_lost
deriving DecidableEq

/-- What `HTTPClient.request` hands back: the `return ret` value (the body
of the last completed transport call, `none` when no transport call ever
completed) or a raised error together with the last response seen. -/
inductive ReqResult
  | returned (ret : Option TResp)
  | raised (e : ReqErr) (last : Option TResp)
deriving DecidableEq

/-- Loop-carried state plus observability counters: `last` is the
`response`/`ret` pair of variables (set together at each transport call,
lines 834/908, and never cleared), `attempts` counts completed transport
calls, `sleeps` records every `asyncio.sleep` of the loop in order, and
`migrations` counts handled `RateLimitMigrating` signals. -/
structure LoopSt where
  last : Option TResp
  attempts : Nat
  sleeps : List Nat
  migrations : Nat
deriving DecidableEq

/-- Initial loop state (lines 783-784: `ret = None`, `response = None`). -/
def LoopSt.init : LoopSt := { last := none, attempts := 0, sleeps := [], migrations := 0 }

/-- Control decision after one loop body: go on to the next
`retry_count`, or leave the loop with a result. -/
inductive StepOut
  | next (st : LoopSt)
  | stop (res : ReqResult) (st : LoopSt)
deriving DecidableEq

/-- The retry-exhaustion check at the bottom of the loop body
(lines 961-973): at the last iteration, raise `DiscordServerError` or
`HTTPException` carrying the last response, or nothing when no response was
ever received. -/
def exhaust_check (retry_count : Nat) (st : LoopSt) : StepOut :=
  if 4 ≤ retry_count then
    match st.last with
    | some r =>
      if 500 ≤ r.status then .stop (.raised .discord_server_error (some r)) st
      else .stop (.raised .http_exception (some r)) st
    | none => .next st
  else .next st

/-- One iteration of the body of the `for retry_count in range(5)` loop
(lines 809-973), given the iteration's outcome. -/
def request_iter (retry_request : Bool) (o : Outcome) (retry_count : Nat)
    (st : LoopSt) : StepOut :=
  match o with
  | .rl_changed => .next st
  | .os_retry =>
    if retry_count < 4 then
      .next { st with sleeps := st.sleeps ++ [1 + retry_count * 2] }
    else .stop (.raised .os_error st.last) st
  | .os_fatal => .stop (.raised .os_error st.last) st
  | .migrate_found => exhaust_check retry_count { st with migrations := st.migrations + 1 }
  | .migrate_lost => .stop (.raised .value_error_migrating st.last) st
  | .transport r =>
    let st1 : LoopSt := { st with last := some r, attempts := st.attempts + 1 }
    match handle_http_response_errors retry_request retry_count r with
    | .raise_err e => .stop (.raised e (some r)) st1
    | .ok => .stop (.returned (some r)) st1
    | .retry_after_sleep s => exhaust_check retry_count { st1 with sleeps := st1.sleeps ++ [s] }
    | .retry_no_sleep => exhaust_check retry_count st1

/-- Final result of a run: the returned/raised value plus the counters. -/
structure RunOut where
  result : ReqResult
  final : LoopSt
deriving DecidableEq

/-- Runs the loop body over the remaining iteration indices; an exhausted
index list is the `for` loop falling through to `return ret` (line 974). -/
def run_list (retry_request : Bool) (script : Nat → Outcome) :
    List Nat → LoopSt → RunOut
  | [], st => ⟨.returned st.last, st⟩
  | rc :: rest, st =>
    match request_iter retry_request (script rc) rc st with
    | .stop res st1 => ⟨res, st1⟩
    | .next st1 => run_list retry_request script rest st1

/-- The `for retry_count in range(max_retry_count)` loop of
`HTTPClient.request` with `max_retry_count = 5` (lines 777, 809-974). -/
def request_loop (script : Nat → Outcome) (retry_request : Bool) : RunOut :=
  run_list retry_request script (List.range 5) LoopSt.init

/-- `HTTPClient.request` from the fail-fast check on (lines 786-974): with
`retry_request=False` and a locked gate it raises
`HTTPInternalRatelimitLocked` before any transport call; otherwise it runs
the retry loop. -/
def request_model (global_rate_limit url_rate_limit : RateLimit)
    (retry_request : Bool) (script : Nat → Outcome) : RunOut :=
  if retry_request = false && global_rate_limit.locked then
    ⟨.raised .http_internal_ratelimit_locked none, LoopSt.init⟩
  else if retry_request = false && url_rate_limit.locked then
    ⟨.raised .http_internal_ratelimit_locked none, LoopSt.init⟩
  else request_loop script retry_request

/-!
The bucket reaper (`HTTPClient._shed_ratelimits`, src/http.py lines
703-712), the route key (`Route.bucket`, lines 118-140, and the
`_url_rate_limits` key tuple, lines 555-602), and client teardown
(`HTTPClient.close`, lines 1102-1111).
-/

/-- The eviction condition of `HTTPClient._shed_ratelimits` (line 707):
`(value.reset is None or value.reset < time_to_compare) and not
value.resetting`. -/
def RateLimit.shed_evict (rl : RateLimit) (time_to_compare : Rat) : Bool :=
  (match rl.reset with
   | none => true
   | some t => t < time_to_compare) && !rl.resetting

/-- Key of the `_url_rate_limits` registry: `("METHOD", Route.bucket, auth)`
(line 555). -/
abbrev UrlKey := String × String × Option String

/-- `HTTPClient._shed_ratelimits` (lines 703-712): one sweep over the
`_url_rate_limits` registry at time `now` (`utils.utcnow()`), with
`time_to_compare = now - threshold`; entries meeting the eviction condition
are popped, the rest are kept. -/
def shed_ratelimits (threshold now : Rat) (entries : List (UrlKey × RateLimit)) :
    List (UrlKey × RateLimit) :=
  entries.filter (fun e => !(e.2.shed_evict (now - threshold)))

/-- `Route` after `__init__` (lines 121-135): the templated path, the
method, and the extracted major parameters.  Snowflake identifiers are
naturals; `none` is Python `None` (the parameter was not supplied). -/
structure Route where
  method : String
  path : String
  channel_id : Option Nat
  guild_id : Option Nat
  webhook_id : Option Nat
  webhook_token : Option String
deriving DecidableEq

/-- Rendering of an optional snowflake inside the f-string of
`Route.bucket`: Python formats `None` as `"None"` and an `int` as its
decimal representation. -/
def pyStrOptNat : Option Nat → String
  | none => "None"
  | some n => Nat.repr n

/-- `Route.bucket` (lines 137-140):
`f"{self.channel_id}:{self.guild_id}:{self.path}"`. -/
def Route.bucket (r : Route) : String :=
  pyStrOptNat r.channel_id ++ ":" ++ pyStrOptNat r.guild_id ++ ":" ++ r.path

/-- The registry key under which `_make_url_rate_limit`,
`_set_url_rate_limit` and `_get_url_rate_limit` store and look up a route's
rate-limit state: `(method, route.bucket, auth)` (lines 584-602). -/
def url_rate_limit_key (r : Route) (auth : Option String) : UrlKey :=
  (r.method, r.bucket, auth)

/-- The pieces of `HTTPClient` state that `close` touches or should touch:
the transport session, the two registries, the shed (reaper) task, and the
set of `RateLimit.reset_remaining` timer tasks held by the event loop
(one Boolean per task, `true` while still active). -/
structure ClientState where
  session_open : Bool
  url_rate_limits : List (UrlKey × RateLimit)
  global_rate_limits : List (Option String × RateLimit)
  shed_task_active : Bool
  reset_timer_tasks : List Bool
deriving DecidableEq

/-- `HTTPClient.close` (lines 1102-1111): awaits `session.close()`, clears
both registries, and cancels the shed task when it is still running.  No
statement of `close` touches the per-bucket reset timer tasks, so
`reset_timer_tasks` is carried over unchanged. -/
def ClientState.close (c : ClientState) : ClientState :=
  { c with
    session_open := false
    url_rate_limits := []
    global_rate_limits := []
    shed_task_active := false }

/-!
Decimal rendering of naturals.  `Route.bucket` is a Python f-string, so the
route key is a `String`; the distinctness half of the key claims needs that
`Nat.repr` is injective, produces only digit characters, and never produces
`"None"`.  Core's `Nat.repr` runs through the fuelled `Nat.toDigitsCore`;
`dec_digits` is the same function written by structural recursion, proved
equal to it below.
-/

/-- Decimal digit string of `n`, most significant digit first. -/
def dec_digits (n : Nat) : List Char :=
  if n < 10 then [Nat.digitChar n]
  else dec_digits (n / 10) ++ [Nat.digitChar (n % 10)]
decreasing_by exact Nat.div_lt_self (by omega) (by omega)

/-- Value of a decimal digit string. -/
def dec_val (l : List Char) : Nat :=
  l.foldl (fun a c => 10 * a + (c.toNat - 48)) 0

/-- The loop state carried out of one `request_iter` decision, whichever way
control went. -/
def StepOut.state : StepOut → LoopSt
  | .next st => st
  | .stop _ st => st

/-!
Concrete program states used by the counterexamples and witnesses below.
They are written with fully literal fields (no arithmetic in `Rat`
positions) so that the kernel can evaluate comparisons on them.
-/

/-- A bucket that has exhausted its window: `limit = 3`, `remaining = 0`. -/
def rl_c1 : RateLimit :=
  { limit := 3, remaining := 0, reset := none, tracked_reset_time := 1,
    reset_after := 1, bucket := none, time_offset := 0,
    use_reset_timestamp := false, first_update := false, resetting := false,
    ready := false, migrating := none, scheduled_delay := 0 }

/-- A bucket past its first update with `remaining = 2`. -/
def rl_w1 : RateLimit :=
  { limit := 5, remaining := 2, reset := none, tracked_reset_time := 1,
    reset_after := 1, bucket := none, time_offset := 0,
    use_reset_timestamp := false, first_update := false, resetting := false,
    ready := true, migrating := none, scheduled_delay := 0 }

/-- Headers reporting `limit 5, remaining 3` and nothing else. -/
def hdr_w1 : RespHeaders :=
  { x_global := none, x_bucket := none, x_limit := some 5, x_remaining := some 3,
    x_reset := none, x_reset_after := none, x_scope := none, retry_after_hdr := none }

/-- A locked rate limit (`remaining = 0`). -/
def rl_c5 : RateLimit :=
  { limit := 1, remaining := 0, reset := none, tracked_reset_time := 1,
    reset_after := 1, bucket := none, time_offset := 0,
    use_reset_timestamp := false, first_update := true, resetting := false,
    ready := true, migrating := none, scheduled_delay := 0 }

/-- An open rate limit (`remaining = 1`). -/
def rl_open : RateLimit :=
  { limit := 1, remaining := 1, reset := none, tracked_reset_time := 1,
    reset_after := 1, bucket := none, time_offset := 0,
    use_reset_timestamp := false, first_update := true, resetting := false,
    ready := true, migrating := none, scheduled_delay := 0 }

/-- A freshly created bucket: `reset = None`, no reset task running. -/
def rl_c6 : RateLimit :=
  { limit := 1, remaining := 1, reset := none, tracked_reset_time := 1,
    reset_after := 1, bucket := none, time_offset := 0,
    use_reset_timestamp := false, first_update := true, resetting := false,
    ready := true, migrating := none, scheduled_delay := 0 }

/-- A bucket whose reset task is currently counting down. -/
def rl_c6r : RateLimit :=
  { limit := 1, remaining := 0, reset := none, tracked_reset_time := 1,
    reset_after := 1, bucket := none, time_offset := 0,
    use_reset_timestamp := false, first_update := false, resetting := true,
    ready := false, migrating := none, scheduled_delay := 1 }

/-- A webhook route with webhook id 1 and token "t1". -/
def route_c7a : Route :=
  { method := "POST", path := "/webhooks/{webhook_id}/{webhook_token}",
    channel_id := none, guild_id := none, webhook_id := some 1,
    webhook_token := some "t1" }

/-- The same template with webhook id 2 and token "t2". -/
def route_c7b : Route :=
  { method := "POST", path := "/webhooks/{webhook_id}/{webhook_token}",
    channel_id := none, guild_id := none, webhook_id := some 2,
    webhook_token := some "t2" }

/-- A bucket in reset-after mode with a ratchet estimate of 2 seconds. -/
def rl_w8 : RateLimit :=
  { limit := 5, remaining := 3, reset := none, tracked_reset_time := 2,
    reset_after := 2, bucket := some "abcd", time_offset := 0,
    use_reset_timestamp := false, first_update := false, resetting := true,
    ready := true, migrating := none, scheduled_delay := 2 }

/-- Headers carrying only a bucket name matching `rl_w8`. -/
def hdr_w8 : RespHeaders :=
  { x_global := none, x_bucket := some "abcd", x_limit := some 5,
    x_remaining := some 2, x_reset := none, x_reset_after := none,
    x_scope := none, retry_after_hdr := none }

/-- The state `rl_w1.update hdr_w1 0` produces. -/
def rl_w1s : RateLimit :=
  { rl_w1 with limit := 5, remaining := 2, resetting := true, scheduled_delay := 1 }

/-- The state `rl_w8.update hdr_w8 0` produces. -/
def rl_w8s : RateLimit :=
  { rl_w8 with limit := 5, remaining := 2 }

/-- A client with an open session, a running reaper, and one bucket reset
timer currently counting down. -/
def client_c9 : ClientState :=
  { session_open := true, url_rate_limits := [], global_rate_limits := [],
    shed_task_active := true, reset_timer_tasks := [true] }

theorem toDigitsCore_append (fuel : Nat) :
    ∀ (n : Nat) (ds : List Char),
      Nat.toDigitsCore 10 fuel n ds = Nat.toDigitsCore 10 fuel n [] ++ ds := by
  induction fuel with
  | zero => intro n ds; simp [Nat.toDigitsCore]
  | succ f ih =>
    intro n ds
    simp only [Nat.toDigitsCore]
    by_cases h : n / 10 = 0
    · simp [h]
    · simp only [h, if_false]
      rw [ih (n / 10) [Nat.digitChar (n % 10)], ih (n / 10) (Nat.digitChar (n % 10) :: ds)]
      simp

theorem toDigitsCore_eq_dec_digits (fuel : Nat) :
    ∀ n : Nat, n < fuel → Nat.toDigitsCore 10 fuel n [] = dec_digits n := by
  induction fuel with
  | zero => intro n h; omega
  | succ f ih =>
    intro n h
    simp only [Nat.toDigitsCore]
    by_cases h0 : n / 10 = 0
    · have hn : n < 10 := by omega
      rw [dec_digits]
      simp [h0, hn, Nat.mod_eq_of_lt hn]
    · have hn : ¬n < 10 := by omega
      rw [dec_digits]
      simp only [hn, if_false, h0, if_false]
      rw [toDigitsCore_append, ih (n / 10) (by omega)]

theorem nat_repr_eq_dec_digits (n : Nat) : Nat.repr n = (dec_digits n).asString := by
  show (Nat.toDigits 10 n).asString = (dec_digits n).asString
  rw [Nat.toDigits, toDigitsCore_eq_dec_digits (n + 1) n (by omega)]

theorem digitChar_toNat (m : Nat) (h : m < 10) : (Nat.digitChar m).toNat = m + 48 := by
  interval_cases m <;> rfl

theorem dec_val_dec_digits (n : Nat) : dec_val (dec_digits n) = n := by
  induction n using Nat.strong_induction_on with
  | _ n ih =>
    rw [dec_digits]
    by_cases h : n < 10
    · simp only [h, if_true]
      simp [dec_val, digitChar_toNat n h]
    · simp only [h, if_false]
      have hd : n / 10 < n := Nat.div_lt_self (by omega) (by omega)
      have hv := ih (n / 10) hd
      simp only [dec_val, List.foldl_append, List.foldl_cons, List.foldl_nil] at hv ⊢
      rw [hv, digitChar_toNat (n % 10) (by omega)]
      omega

theorem dec_digits_digit_char (n : Nat) :
    ∀ c ∈ dec_digits n, 48 ≤ c.toNat ∧ c.toNat ≤ 57 := by
  induction n using Nat.strong_induction_on with
  | _ n ih =>
    rw [dec_digits]
    by_cases h : n < 10
    · simp only [h, if_true, List.mem_singleton]
      rintro c rfl
      rw [digitChar_toNat n h]
      omega
    · simp only [h, if_false, List.mem_append, List.mem_singleton]
      rintro c (hc | rfl)
      · exact ih (n / 10) (Nat.div_lt_self (by omega) (by omega)) c hc
      · rw [digitChar_toNat (n % 10) (by omega)]
        omega

theorem nat_repr_injective : Function.Injective Nat.repr := by
  intro m n h
  rw [nat_repr_eq_dec_digits, nat_repr_eq_dec_digits] at h
  have hd : dec_digits m = dec_digits n := congrArg String.data h
  have := congrArg dec_val hd
  rwa [dec_val_dec_digits, dec_val_dec_digits] at this

theorem nat_repr_ne_none_str (n : Nat) : Nat.repr n ≠ "None" := by
  intro h
  rw [nat_repr_eq_dec_digits] at h
  have hd : dec_digits n = "None".data := congrArg String.data h
  have hm : 'N' ∈ dec_digits n := by rw [hd]; decide
  have := dec_digits_digit_char n 'N' hm
  revert this; decide

theorem pyStrOptNat_injective : Function.Injective pyStrOptNat := by
  intro a b h
  match a, b with
  | none, none => rfl
  | none, some n => exact absurd h.symm (nat_repr_ne_none_str n)
  | some n, none => exact absurd h (nat_repr_ne_none_str n)
  | some m, some n => rw [nat_repr_injective h]

theorem colon_not_mem_pyStrOptNat (o : Option Nat) : ':' ∉ (pyStrOptNat o).data := by
  match o with
  | none => decide
  | some n =>
    show ':' ∉ (Nat.repr n).data
    rw [nat_repr_eq_dec_digits]
    intro hm
    have := dec_digits_digit_char n ':' hm
    revert this; decide

theorem append_cons_inj {c : Char} :
    ∀ {a b t u : List Char}, c ∉ a → c ∉ b → a ++ c :: t = b ++ c :: u →
      a = b ∧ t = u := by
  intro a
  induction a with
  | nil =>
    intro b t u _ hb h
    cases b with
    | nil => simpa using h
    | cons x xs =>
      simp only [List.nil_append, List.cons_append, List.cons.injEq] at h
      exact absurd (h.1 ▸ List.mem_cons_self x xs) (h.1 ▸ hb)
  | cons x xs ih =>
    intro b t u ha hb h
    cases b with
    | nil =>
      simp only [List.cons_append, List.nil_append, List.cons.injEq] at h
      exact absurd (h.1 ▸ List.mem_cons_self x xs) (h.1 ▸ ha)
    | cons y ys =>
      simp only [List.cons_append, List.cons.injEq] at h
      obtain ⟨rfl, h2⟩ := h
      have := ih (fun hm => ha (List.mem_cons_of_mem x hm))
        (fun hm => hb (List.mem_cons_of_mem x hm)) h2
      exact ⟨by rw [this.1], this.2⟩

theorem route_bucket_eq_iff (r1 r2 : Route) :
    r1.bucket = r2.bucket ↔
      (r1.channel_id = r2.channel_id ∧ r1.guild_id = r2.guild_id ∧ r1.path = r2.path) := by
  constructor
  · intro h
    have hd := congrArg String.data h
    simp only [Route.bucket, String.data_append] at hd
    have hd1 : (pyStrOptNat r1.channel_id).data ++ ':' ::
        ((pyStrOptNat r1.guild_id).data ++ ':' :: r1.path.data) =
        (pyStrOptNat r2.channel_id).data ++ ':' ::
        ((pyStrOptNat r2.guild_id).data ++ ':' :: r2.path.data) := by
      simpa using hd
    obtain ⟨hc, hr⟩ := append_cons_inj (colon_not_mem_pyStrOptNat r1.channel_id)
      (colon_not_mem_pyStrOptNat r2.channel_id) hd1
    obtain ⟨hg, hp⟩ := append_cons_inj (colon_not_mem_pyStrOptNat r1.guild_id)
      (colon_not_mem_pyStrOptNat r2.guild_id) hr
    exact ⟨pyStrOptNat_injective (String.ext hc), pyStrOptNat_injective (String.ext hg),
      String.ext hp⟩
  · rintro ⟨h1, h2, h3⟩
    simp [Route.bucket, h1, h2, h3]

theorem start_reset_task_remaining (rl : RateLimit) (now : Rat) :
    (rl.start_reset_task now).remaining = rl.remaining := rfl

theorem track_reset_gap_remaining (rl : RateLimit) (x : Rat) :
    (rl.track_reset_gap x).remaining = rl.remaining := by
  unfold RateLimit.track_reset_gap
  repeat' split
  all_goals rfl

theorem advance_reset_remaining (rl : RateLimit) (x now : Rat) :
    (rl.advance_reset x now).remaining = rl.remaining := by
  unfold RateLimit.advance_reset
  repeat' split
  all_goals dsimp only
  all_goals try split
  all_goals rfl

theorem upd_reset_remaining (rl : RateLimit) (h : RespHeaders) (now : Rat) :
    (rl.upd_reset h now).remaining = rl.remaining := by
  unfold RateLimit.upd_reset
  repeat' split
  · rfl
  · rw [advance_reset_remaining, track_reset_gap_remaining]

theorem upd_reset_after_remaining (rl : RateLimit) (h : RespHeaders) (now : Rat) :
    (rl.upd_reset_after h now).remaining = rl.remaining := by
  unfold RateLimit.upd_reset_after
  repeat' split
  all_goals dsimp only
  all_goals try split
  all_goals rfl

theorem start_reset_task_tracked (rl : RateLimit) (now : Rat) :
    (rl.start_reset_task now).tracked_reset_time = rl.tracked_reset_time := rfl

theorem upd_limit_tracked (rl : RateLimit) (h : RespHeaders) :
    (rl.upd_limit h).tracked_reset_time = rl.tracked_reset_time := rfl

theorem upd_remaining_tracked (rl : RateLimit) (h : RespHeaders) :
    (rl.upd_remaining h).tracked_reset_time = rl.tracked_reset_time := rfl

theorem track_reset_gap_tracked_le (rl : RateLimit) (x : Rat) :
    rl.tracked_reset_time ≤ (rl.track_reset_gap x).tracked_reset_time := by
  unfold RateLimit.track_reset_gap
  repeat' split
  · exact le_max_left _ _
  all_goals exact le_refl _

theorem advance_reset_tracked (rl : RateLimit) (x now : Rat) :
    (rl.advance_reset x now).tracked_reset_time = rl.tracked_reset_time := by
  unfold RateLimit.advance_reset
  repeat' split
  all_goals dsimp only
  all_goals try split
  all_goals rfl

theorem upd_reset_tracked_le (rl : RateLimit) (h : RespHeaders) (now : Rat) :
    rl.tracked_reset_time ≤ (rl.upd_reset h now).tracked_reset_time := by
  unfold RateLimit.upd_reset
  repeat' split
  · exact le_refl _
  · rw [advance_reset_tracked]
    exact track_reset_gap_tracked_le _ _

theorem upd_reset_after_tracked_le (rl : RateLimit) (h : RespHeaders) (now : Rat) :
    rl.tracked_reset_time ≤ (rl.upd_reset_after h now).tracked_reset_time := by
  unfold RateLimit.upd_reset_after
  split
  · exact le_refl _
  · dsimp only
    split
    · rename_i hc
      exact le_of_lt hc.2
    · exact le_refl _

theorem exhaust_check_state (rc : Nat) (st : LoopSt) :
    (exhaust_check rc st).state = st := by
  unfold exhaust_check
  repeat' split
  all_goals rfl

theorem exhaust_check_counters (rc : Nat) (st : LoopSt) :
    (exhaust_check rc st).state.attempts = st.attempts ∧
      (exhaust_check rc st).state.migrations = st.migrations := by
  rw [exhaust_check_state]
  exact ⟨rfl, rfl⟩

theorem request_iter_budget (rr : Bool) (o : Outcome) (rc : Nat) (st : LoopSt) :
    (request_iter rr o rc st).state.attempts + (request_iter rr o rc st).state.migrations ≤
      st.attempts + st.migrations + 1 := by
  cases o with
  | rl_changed => simp [request_iter, StepOut.state]
  | os_retry =>
    simp only [request_iter]
    split <;> simp [StepOut.state]
  | os_fatal => simp [request_iter, StepOut.state]
  | migrate_found =>
    simp only [request_iter]
    rw [exhaust_check_state]
    simp
    omega
  | migrate_lost => simp [request_iter, StepOut.state]
  | transport r =>
    simp only [request_iter]
    split
    all_goals (try rw [exhaust_check_state]); simp [StepOut.state]; omega

theorem run_list_budget (rr : Bool) (script : Nat → Outcome) :
    ∀ (l : List Nat) (st : LoopSt),
      (run_list rr script l st).final.attempts + (run_list rr script l st).final.migrations ≤
        st.attempts + st.migrations + l.length := by
  intro l
  induction l with
  | nil => intro st; simp [run_list]
  | cons rc rest ih =>
    intro st
    have hb := request_iter_budget rr (script rc) rc st
    unfold run_list
    rcases hq : request_iter rr (script rc) rc st with st1 | ⟨res, st1⟩
    · rw [hq] at hb
      simp only [StepOut.state] at hb
      dsimp only
      calc (run_list rr script rest st1).final.attempts +
            (run_list rr script rest st1).final.migrations ≤
          st1.attempts + st1.migrations + rest.length := ih st1
        _ ≤ st.attempts + st.migrations + 1 + rest.length := by omega
        _ = st.attempts + st.migrations + (rc :: rest).length := by
            simp [List.length_cons]; omega
    · rw [hq] at hb
      simp only [StepOut.state] at hb
      dsimp only
      simp only [List.length_cons]
      omega

theorem handle_5xx_retry (rc : Nat) (r : TResp)
    (h : r.status = 500 ∨ r.status = 502 ∨ r.status = 504) :
    handle_http_response_errors true rc r = .retry_after_sleep (1 + rc * 2) := by
  rcases h with h | h | h <;> simp [handle_http_response_errors, h]

theorem if_first_update_remaining (c : Prop) [Decidable c] (x : RateLimit) :
    (if c then { x with first_update := false } else x).remaining = x.remaining := by
  split <;> rfl

theorem if_ready_remaining (c : Prop) [Decidable c] (x : RateLimit) :
    (if c then { x with ready := true } else x).remaining = x.remaining := by
  split <;> rfl

theorem if_start_reset_remaining (c : Prop) [Decidable c] (x : RateLimit) (now : Rat) :
    (if c then x else x.start_reset_task now).remaining = x.remaining := by
  split <;> rfl

theorem if_first_update_tracked (c : Prop) [Decidable c] (x : RateLimit) :
    (if c then { x with first_update := false } else x).tracked_reset_time =
      x.tracked_reset_time := by
  split <;> rfl

theorem if_ready_tracked (c : Prop) [Decidable c] (x : RateLimit) :
    (if c then { x with ready := true } else x).tracked_reset_time =
      x.tracked_reset_time := by
  split <;> rfl

theorem if_start_reset_tracked (c : Prop) [Decidable c] (x : RateLimit) (now : Rat) :
    (if c then x else x.start_reset_task now).tracked_reset_time =
      x.tracked_reset_time := by
  split <;> rfl

theorem update_after_first_remaining_le (rl : RateLimit) (h : RespHeaders) (now : Rat)
    (rl' : RateLimit) (v : Int) (hfu : rl.first_update = false)
    (hrem : h.x_remaining = some v) (hup : rl.update h now = .ok rl') :
    rl'.remaining ≤ rl.remaining := by
  unfold RateLimit.update at hup
  split at hup
  · obtain rfl := Except.ok.inj hup
    exact le_refl _
  · split at hup
    · simp at hup
    · dsimp only at hup
      obtain rfl := Except.ok.inj hup
      rw [if_first_update_remaining, if_ready_remaining, if_start_reset_remaining,
        upd_reset_after_remaining, upd_reset_remaining]
      unfold RateLimit.upd_remaining RateLimit.upd_limit
      rw [hrem]
      dsimp only
      rw [hfu]
      simp

/-- Claim C1 counterexample: `migrate_to` raises `remaining`.  On the bucket
`rl_c1` (with `limit = 3` and `remaining = 0`), `RateLimit.migrate_to` (line
352: `self.remaining = self.limit`) strictly increases `remaining`, so it is
false that every operation other than the reset timer only decreases
`remaining` or leaves it unchanged. -/
theorem c1_counterexample :
    rl_c1.remaining < (rl_c1.migrate_to "abcd").remaining ∧
    rl_c1.remaining = 0 ∧ (rl_c1.migrate_to "abcd").remaining = 3 := by
  decide

/-- Claim C1 (amended): between firings of the reset timer, `remaining` is
raised only by `migrate_to` (which restores it to `limit` to release
waiters into the migration path) and by `update()` when the remaining
header is absent (which resets the pessimistic count to the default 1).
In particular: an `update()` after the first that carries a remaining
header never increases `remaining`; `acquire()` decrements it by one;
`release()` leaves it unchanged; `migrate_to` and the reset-timer body both
set it to `limit`. -/
theorem c1_theorem :
    (∀ (rl : RateLimit) (h : RespHeaders) (now : Rat) (rl' : RateLimit) (v : Int),
        rl.first_update = false → h.x_remaining = some v →
        rl.update h now = .ok rl' → rl'.remaining ≤ rl.remaining) ∧
    (∀ (rl : RateLimit) (now : Rat) (rl' : RateLimit),
        rl.acquire_step now = (.proceed, rl') → rl'.remaining = rl.remaining - 1) ∧
    (∀ rl : RateLimit, rl.release.remaining = rl.remaining) ∧
    (∀ (rl : RateLimit) (b : String), (rl.migrate_to b).remaining = rl.limit) ∧
    (∀ rl : RateLimit, rl.reset_remaining.remaining = rl.limit) := by
  refine ⟨update_after_first_remaining_le, ?_, fun rl => rfl, fun rl b => rfl, fun rl => rfl⟩
  intro rl now rl' ha
  unfold RateLimit.acquire_step at ha
  split at ha
  · simp at ha
  · split at ha
    · simp at ha
    · split at ha
      · simp at ha
      · injection ha with h1 h2
        subst h2
        rfl

/-- Claim C1 witness: the amended update clause at a concrete input
(`rl_w1`, past its first update with `remaining = 2`, receiving headers
reporting `remaining 3`). -/
theorem c1_witness : rl_w1s.remaining ≤ rl_w1.remaining :=
  c1_theorem.1 rl_w1 hdr_w1 0 rl_w1s 3 rfl rfl rfl

/-- Claim C2 counterexample: migration signals do count against the retry
cap.  In a run whose first four loop iterations end in a handled
`RateLimitMigrating` and whose transport responses are retryable 500s, only
one transport attempt is ever made before the request fails, so after four
migration redirects the request does not have its full retry budget. -/
theorem c2_counterexample :
    (request_loop
        (fun i => if i < 4 then Outcome.migrate_found else Outcome.transport ⟨500, true, true⟩)
        true).final.attempts = 1 ∧
    (request_loop
        (fun i => if i < 4 then Outcome.migrate_found else Outcome.transport ⟨500, true, true⟩)
        true).final.migrations = 4 ∧
    (request_loop
        (fun i => if i < 4 then Outcome.migrate_found else Outcome.transport ⟨500, true, true⟩)
        true).result = .raised .discord_server_error (some ⟨500, true, true⟩) := by
  decide

/-- Claim C2 (amended): a handled migration signal consumes one iteration of
the same bounded `for retry_count in range(5)` loop that transport attempts
run in, so transport attempts and migration redirects draw on one shared
budget: in every run their counts sum to at most 5. -/
theorem c2_theorem (script : Nat → Outcome) (retry_request : Bool) :
    (request_loop script retry_request).final.attempts +
      (request_loop script retry_request).final.migrations ≤ 5 := by
  have h := run_list_budget retry_request script (List.range 5) LoopSt.init
  simpa [request_loop, LoopSt.init] using h

/-- Claim C3 counterexample: the edge-block test is a disjunction, not a
conjunction.  A 429 whose `Via` header is present but whose body is not
JSON, and a 429 whose body is JSON but whose `Via` header is absent, are
both surfaced immediately as `HTTPException` (line 1063 uses `or`), even
though the claim calls each of them retry-eligible. -/
theorem c3_counterexample :
    handle_http_response_errors true 0 ⟨429, true, false⟩ = .raise_err .http_exception ∧
    handle_http_response_errors true 0 ⟨429, false, true⟩ = .raise_err .http_exception := by
  decide

/-- Claim C3 (amended): with retries enabled, a 429 is treated as a
non-recoverable edge/CDN block (immediate `HTTPException`, no retry)
exactly when the response lacks a `Via` header OR has a non-JSON body; it
is eligible for retry only when it has a `Via` header AND a JSON body. -/
theorem c3_theorem (rc : Nat) (r : TResp) (h429 : r.status = 429) :
    (handle_http_response_errors true rc r = .raise_err .http_exception ↔
      (r.via_truthy = false ∨ r.body_is_json = false)) ∧
    (r.via_truthy = true → r.body_is_json = true →
      handle_http_response_errors true rc r = .retry_no_sleep) := by
  rcases r with ⟨s, v, j⟩
  simp only at h429
  subst h429
  cases v <;> cases j <;> simp [handle_http_response_errors]

/-- Claim C3 witness: the amended characterisation evaluated at a concrete
429 response carrying a `Via` header and a JSON body. -/
theorem c3_witness :
    ((handle_http_response_errors true 0 ⟨429, true, true⟩ = .raise_err .http_exception ↔
      ((⟨429, true, true⟩ : TResp).via_truthy = false ∨
        (⟨429, true, true⟩ : TResp).body_is_json = false)) ∧
    ((⟨429, true, true⟩ : TResp).via_truthy = true →
      (⟨429, true, true⟩ : TResp).body_is_json = true →
      handle_http_response_errors true 0 ⟨429, true, true⟩ = .retry_no_sleep)) :=
  c3_theorem 0 ⟨429, true, true⟩ rfl

/-- Claim C4: with retries enabled and every transport response a
retryable server error (status 500, 502 or 504), the loop performs exactly
5 transport attempts; the handler sleeps `1 + attempt*2` seconds after each
response (so the sleeps before attempts 1..4 are 1s, 3s, 5s, 7s, with a
final 9s backoff after the fifth response), and the run ends by raising
`DiscordServerError` carrying the last response. -/
theorem c4_theorem (script : Nat → Outcome) (r : Nat → TResp)
    (hs : ∀ i, i < 5 → script i = Outcome.transport (r i))
    (hst : ∀ i, i < 5 → (r i).status = 500 ∨ (r i).status = 502 ∨ (r i).status = 504) :
    request_loop script true =
      ⟨.raised .discord_server_error (some (r 4)),
        { last := some (r 4), attempts := 5, sleeps := [1, 3, 5, 7, 9], migrations := 0 }⟩ := by
  have e0 := hs 0 (by omega)
  have e1 := hs 1 (by omega)
  have e2 := hs 2 (by omega)
  have e3 := hs 3 (by omega)
  have e4 := hs 4 (by omega)
  have f0 := handle_5xx_retry 0 (r 0) (hst 0 (by omega))
  have f1 := handle_5xx_retry 1 (r 1) (hst 1 (by omega))
  have f2 := handle_5xx_retry 2 (r 2) (hst 2 (by omega))
  have f3 := handle_5xx_retry 3 (r 3) (hst 3 (by omega))
  have f4 := handle_5xx_retry 4 (r 4) (hst 4 (by omega))
  have h500 : 500 ≤ (r 4).status := by
    rcases hst 4 (by omega) with h | h | h <;> omega
  show run_list true script [0, 1, 2, 3, 4] LoopSt.init = _
  simp only [run_list, e0, e1, e2, e3, e4, request_iter, f0, f1, f2, f3, f4,
    exhaust_check, LoopSt.init, h500]
  norm_num

/-- Claim C4 witness: five consecutive 500 responses at a concrete input. -/
theorem c4_witness :
    request_loop (fun _ => Outcome.transport ⟨500, true, true⟩) true =
      ⟨.raised .discord_server_error (some ⟨500, true, true⟩),
        { last := some ⟨500, true, true⟩, attempts := 5, sleeps := [1, 3, 5, 7, 9],
          migrations := 0 }⟩ :=
  c4_theorem _ (fun _ => ⟨500, true, true⟩) (fun _ _ => rfl) (fun _ _ => Or.inl rfl)

/-- Claim C5: with `retry_request=False` and the global or the route gate
locked (`remaining <= 0`) at check time, `request` raises
`HTTPInternalRatelimitLocked` at once, with the loop state still initial —
in particular zero transport attempts. -/
theorem c5_theorem (global_rate_limit url_rate_limit : RateLimit) (script : Nat → Outcome)
    (h : global_rate_limit.locked = true ∨ url_rate_limit.locked = true) :
    request_model global_rate_limit url_rate_limit false script =
      ⟨.raised .http_internal_ratelimit_locked none, LoopSt.init⟩ ∧
    LoopSt.init.attempts = 0 := by
  refine ⟨?_, rfl⟩
  unfold request_model
  rcases h with h | h
  · simp [h]
  · by_cases hg : global_rate_limit.locked
    · simp [hg]
    · simp [h, hg]

/-- Claim C5 witness: a locked global gate with an open route gate at a
concrete input whose script would otherwise succeed immediately. -/
theorem c5_witness :
    request_model rl_c5 rl_open false (fun _ => Outcome.transport ⟨200, true, true⟩) =
      ⟨.raised .http_internal_ratelimit_locked none, LoopSt.init⟩ ∧
    LoopSt.init.attempts = 0 :=
  c5_theorem rl_c5 rl_open (fun _ => Outcome.transport ⟨200, true, true⟩)
    (Or.inl (by decide))

theorem shed_evict_true_iff (rl : RateLimit) (tc : Rat) :
    rl.shed_evict tc = true ↔
      ((rl.reset = none ∨ ∃ t, rl.reset = some t ∧ t < tc) ∧ rl.resetting = false) := by
  unfold RateLimit.shed_evict
  cases hres : rl.reset <;> simp [hres]

/-- Claim C6 counterexample: the sweep also evicts entries with no reset
time at all.  `rl_c6` has `reset = None` (its reset time is not in the
past — it has never had one) and is not resetting, yet one sweep removes
it, so it is false that only entries whose reset time is in the past are
removed. -/
theorem c6_counterexample :
    shed_ratelimits 600 1000 [((("GET", "k", none) : UrlKey), rl_c6)] = [] ∧
    rl_c6.reset = none ∧ rl_c6.resetting = false := by
  decide

/-- Claim C6 (amended): a sweep removes exactly the entries that are not
resetting and either have no recorded reset time (`reset = None`) or have a
reset time lying more than `threshold` seconds in the past.  Consequently
(for a non-negative threshold) no entry that is currently resetting and no
entry with a future reset time is ever evicted. -/
theorem c6_theorem (threshold now : Rat) (entries : List (UrlKey × RateLimit))
    (e : UrlKey × RateLimit) (hth : 0 ≤ threshold) (he : e ∈ entries) :
    (e ∈ shed_ratelimits threshold now entries ↔
      ¬((e.2.reset = none ∨ ∃ t, e.2.reset = some t ∧ t < now - threshold) ∧
        e.2.resetting = false)) ∧
    (e.2.resetting = true → e ∈ shed_ratelimits threshold now entries) ∧
    (∀ t, e.2.reset = some t → now < t → e ∈ shed_ratelimits threshold now entries) := by
  have key : e ∈ shed_ratelimits threshold now entries ↔
      ¬((e.2.reset = none ∨ ∃ t, e.2.reset = some t ∧ t < now - threshold) ∧
        e.2.resetting = false) := by
    unfold shed_ratelimits
    rw [List.mem_filter]
    simp only [he, true_and]
    rw [Bool.not_eq_true', Bool.eq_false_iff, Ne, shed_evict_true_iff]
  refine ⟨key, ?_, ?_⟩
  · intro hres
    rw [key]
    intro hc
    rw [hres] at hc
    simp at hc
  · intro t ht hnow
    rw [key]
    intro hc
    rcases hc.1 with hnone | ⟨u, hu, hlt⟩
    · rw [ht] at hnone; cases hnone
    · rw [ht] at hu
      obtain rfl := Option.some.inj hu
      have : now - threshold ≤ now := by linarith
      linarith

/-- Claim C6 witness: the amended sweep characterisation at a concrete
registry holding one mid-countdown bucket, threshold 600, time 1000. -/
theorem c6_witness :
    (((("GET", "k", none) : UrlKey), rl_c6r) ∈
        shed_ratelimits 600 1000 [((("GET", "k", none) : UrlKey), rl_c6r)] ↔
      ¬((rl_c6r.reset = none ∨ ∃ t, rl_c6r.reset = some t ∧ t < 1000 - 600) ∧
        rl_c6r.resetting = false)) ∧
    (rl_c6r.resetting = true →
      ((("GET", "k", none) : UrlKey), rl_c6r) ∈
        shed_ratelimits 600 1000 [((("GET", "k", none) : UrlKey), rl_c6r)]) ∧
    (∀ t, rl_c6r.reset = some t → 1000 < t →
      ((("GET", "k", none) : UrlKey), rl_c6r) ∈
        shed_ratelimits 600 1000 [((("GET", "k", none) : UrlKey), rl_c6r)]) :=
  c6_theorem 600 1000 _ _ (by norm_num) (List.mem_singleton.mpr rfl)

/-- Claim C7 counterexample: webhook id and webhook token are not part of
the registry key.  Two routes on the same webhook template that differ in
both webhook id and webhook token map to the same
`(method, Route.bucket, auth)` key, so routes differing in these major
parameters do not get distinct keys. -/
theorem c7_counterexample :
    url_rate_limit_key route_c7a none = url_rate_limit_key route_c7b none ∧
    route_c7a.webhook_id ≠ route_c7b.webhook_id ∧
    route_c7a.webhook_token ≠ route_c7b.webhook_token := by
  decide

/-- Claim C7 (amended): the registry key is
`(method, f"{channel_id}:{guild_id}:{path}", auth)`; two dispatches get the
same key exactly when they agree on method, channel id, guild id, templated
path, and credential.  Webhook id and webhook token are extracted by
`Route.__init__` but play no part in the key, and resolved (non-major)
resource ids never enter it because the templated path is used. -/
theorem c7_theorem (r1 r2 : Route) (a1 a2 : Option String) :
    url_rate_limit_key r1 a1 = url_rate_limit_key r2 a2 ↔
      (r1.method = r2.method ∧ r1.channel_id = r2.channel_id ∧
        r1.guild_id = r2.guild_id ∧ r1.path = r2.path ∧ a1 = a2) := by
  unfold url_rate_limit_key
  simp only [Prod.mk.injEq]
  rw [route_bucket_eq_iff]
  tauto

/-- Claim C8: `RateLimit.update` never lowers the refill-interval estimate:
whenever an update completes, `_tracked_reset_time` after it is at least
its value before, in timestamp mode (`max` with the observed gap) as well
as in reset-after mode (ratchet to the largest observed value). -/
theorem c8_theorem (rl : RateLimit) (h : RespHeaders) (now : Rat) (rl' : RateLimit)
    (hup : rl.update h now = .ok rl') :
    rl.tracked_reset_time ≤ rl'.tracked_reset_time := by
  unfold RateLimit.update at hup
  split at hup
  · obtain rfl := Except.ok.inj hup
    exact le_refl _
  · split at hup
    · simp at hup
    · dsimp only at hup
      obtain rfl := Except.ok.inj hup
      rw [if_first_update_tracked, if_ready_tracked, if_start_reset_tracked]
      refine le_trans ?_ (upd_reset_after_tracked_le _ h now)
      exact upd_reset_tracked_le _ h now

/-- Claim C8 witness: a concrete reset-after-mode update (`rl_w8` receiving
`hdr_w8`) keeps the estimate at least as large. -/
theorem c8_witness : rl_w8.tracked_reset_time ≤ rl_w8s.tracked_reset_time :=
  c8_theorem rl_w8 hdr_w8 0 rl_w8s rfl

/-- Claim C9 counterexample: `close` does not cancel per-bucket reset
timers.  On a client with one reset timer counting down, the timer is still
active after `close()` returns, so it is false that no background task
remains active. -/
theorem c9_counterexample :
    client_c9.close.reset_timer_tasks = [true] ∧
    client_c9.close.session_open = false ∧
    client_c9.close.shed_task_active = false := by
  decide

/-- Claim C9 (amended): after `close()` the transport session is closed,
both registries are cleared and the reaper (shedding) task is cancelled,
but pending per-bucket reset timer tasks are left untouched — they remain
exactly as they were and expire on their own. -/
theorem c9_theorem (c : ClientState) :
    c.close.session_open = false ∧ c.close.url_rate_limits = [] ∧
    c.close.global_rate_limits = [] ∧ c.close.shed_task_active = false ∧
    c.close.reset_timer_tasks = c.reset_timer_tasks :=
  ⟨rfl, rfl, rfl, rfl, rfl⟩

/-- Claim C10: an execution in which every one of the 5 loop iterations
ends in a handled migration redirect reaches the end of the loop with the
final-response variable still `None`; the exhaustion branch raises nothing
and the request returns `None` with zero transport attempts made. -/
theorem c10_theorem :
    (request_loop (fun _ => Outcome.migrate_found) true).result = .returned none ∧
    (request_loop (fun _ => Outcome.migrate_found) true).final.attempts = 0 ∧
    (request_loop (fun _ => Outcome.migrate_found) true).final.migrations = 5 := by
  decide
